import Mathlib

/-!
Verification of the mcp-scaudit smart-contract-audit shim.

The development shallowly embeds the two Python implementations of the shim:
the defensive variant (`farofino_mcp/__main__.py`) and the legacy variant
(`src/mcp_scaudit.py`).  File contents, subprocess behaviour and the
executable search path are modelled by an explicit `World`; each handler is a
pure function from the world and its arguments to an `AuditResult` together
with the trace of subprocess launches it performed.
-/

namespace SCAudit

set_option maxRecDepth 16000

/-! ## Python-style string primitives -/

/-- ASCII whitespace as recognised by Python's `str.strip` and the `\s`
regex class (space, tab, newline, carriage return, vertical tab, form feed).
The Python originals additionally accept non-ASCII Unicode whitespace, which
never occurs in the strings manipulated here. -/
def pyIsSpace (c : Char) : Bool :=
  c = ' ' || c = '\t' || c = '\n' || c = '\r' || c = '\x0b' || c = '\x0c'

/-- Python `str.strip()`: drop leading and trailing whitespace. -/
def pyStrip (s : String) : String :=
  ⟨((s.data.dropWhile pyIsSpace).reverse.dropWhile pyIsSpace).reverse⟩

/-- Characters at which Python `str.splitlines` starts a new line
(the ASCII ones; the Unicode line separators never occur here). -/
def pyIsLineBreak (c : Char) : Bool :=
  c = '\n' || c = '\r' || c = '\x0b' || c = '\x0c' ||
  c = '\x1c' || c = '\x1d' || c = '\x1e' || c = '\x85'

/-- `s.splitlines()[0]` for a string that does not start with a line break:
the characters before the first line break. -/
def firstLine (s : String) : String :=
  ⟨s.data.takeWhile (fun c => !pyIsLineBreak c)⟩

/-- Substring containment on character lists: some suffix of `hay` starts
with `needle`. -/
def containsSubL (needle : List Char) : List Char → Bool
  | [] => needle.isEmpty
  | c :: rest => needle.isPrefixOf (c :: rest) || containsSubL needle rest

/-- Python `pat in content` for strings. -/
def pyIn (pat content : String) : Bool :=
  containsSubL pat.data content.data

/-- Python truthiness of an optional string (`None` and `""` are falsy). -/
def optStrTruthy : Option String → Bool
  | none => false
  | some s => !s.isEmpty

/-- Python `str(x)` rendering of an optional string argument
(`None` renders as `"None"`). -/
def optStr : Option String → String
  | none => "None"
  | some s => s

/-! ## JSON values (the image of Python's `json.loads`) -/

/-- A Python value decoded from JSON.  Numbers keep their source lexeme:
no claim inspects numeric magnitudes, only truthiness and type. -/
inductive Json where
  | null
  | bool (b : Bool)
  | num (lex : String)
  | str (s : String)
  | arr (xs : List Json)
  | obj (kvs : List (String × Json))
deriving Repr

/-- The mantissa of a numeric lexeme: everything before an exponent marker. -/
def numMantissa (lex : String) : String :=
  ⟨lex.data.takeWhile (fun c => c ≠ 'e' && c ≠ 'E')⟩

/-- Python truthiness of a decoded JSON value (`bool(x)`): empty
containers, empty strings, `None`, `False` and numeric zero are falsy. -/
def pyTruthy : Json → Bool
  | .null => false
  | .bool b => b
  | .num lex => (numMantissa lex).data.any (fun c => c.isDigit && c ≠ '0')
  | .str s => !s.isEmpty
  | .arr xs => !xs.isEmpty
  | .obj kvs => !kvs.isEmpty

/-- Python `dict.get key default` on the association list of an object. -/
def dictGet (kvs : List (String × Json)) (key : String) (default : Json) : Json :=
  match kvs.find? (fun kv => kv.fst == key) with
  | some kv => kv.snd
  | none => default

/-- Insert preserving first-occurrence order with last-value-wins, as a
Python dict built by repeated assignment does. -/
def objInsert (kvs : List (String × Json)) (key : String) (v : Json) :
    List (String × Json) :=
  if kvs.any (fun kv => kv.fst == key) then
    kvs.map (fun kv => if kv.fst == key then (key, v) else kv)
  else
    kvs ++ [(key, v)]

/-- The Python type name of a decoded JSON value, as it appears in
`AttributeError` messages. -/
def pyTypeName : Json → String
  | .null => "NoneType"
  | .bool _ => "bool"
  | .num lex =>
      if lex.data.any (fun c => c = '.' || c = 'e' || c = 'E' ||
          c.isAlpha) then "float" else "int"
  | .str _ => "str"
  | .arr _ => "list"
  | .obj _ => "dict"

/-- `str(e)` for the `AttributeError` raised by `x.get(...)` on a
non-dict value `x`. -/
def attrGetErr (j : Json) : String :=
  "'" ++ pyTypeName j ++ "' object has no attribute 'get'"

/-! ## A JSON parser mirroring Python's `json.loads`

The parser is strict like the `json` module (no trailing data, strict
number grammar, `NaN`/`Infinity` accepted).  `\u` escapes outside the
basic multilingual plane and Unicode whitespace are not modelled; no
input considered by the claims uses them. -/

/-- JSON structural whitespace. -/
def jsonWsChar (c : Char) : Bool :=
  c = ' ' || c = '\t' || c = '\n' || c = '\r'

/-- Skip JSON structural whitespace. -/
def skipWs (cs : List Char) : List Char :=
  cs.dropWhile jsonWsChar

/-- Hexadecimal digit value. -/
def hexVal? (c : Char) : Option Nat :=
  if c.isDigit then some (c.toNat - 48)
  else if 'a' ≤ c && c ≤ 'f' then some (c.toNat - 87)
  else if 'A' ≤ c && c ≤ 'F' then some (c.toNat - 55)
  else none

/-- Parse the body of a JSON string after the opening quote, fueled. -/
def parseStrBody : Nat → List Char → Option (List Char × List Char)
  | 0, _ => none
  | fuel + 1, cs =>
    match cs with
    | [] => none
    | '"' :: rest => some ([], rest)
    | '\\' :: e :: rest =>
      match e with
      | '"' => (parseStrBody fuel rest).map (fun p => ('"' :: p.1, p.2))
      | '\\' => (parseStrBody fuel rest).map (fun p => ('\\' :: p.1, p.2))
      | '/' => (parseStrBody fuel rest).map (fun p => ('/' :: p.1, p.2))
      | 'b' => (parseStrBody fuel rest).map (fun p => ('\x08' :: p.1, p.2))
      | 'f' => (parseStrBody fuel rest).map (fun p => ('\x0c' :: p.1, p.2))
      | 'n' => (parseStrBody fuel rest).map (fun p => ('\n' :: p.1, p.2))
      | 'r' => (parseStrBody fuel rest).map (fun p => ('\r' :: p.1, p.2))
      | 't' => (parseStrBody fuel rest).map (fun p => ('\t' :: p.1, p.2))
      | 'u' =>
        match rest with
        | a :: b :: c :: d :: rest2 =>
          match hexVal? a, hexVal? b, hexVal? c, hexVal? d with
          | some va, some vb, some vc, some vd =>
            let n := ((va * 16 + vb) * 16 + vc) * 16 + vd
            (parseStrBody fuel rest2).map
              (fun p => (Char.ofNat n :: p.1, p.2))
          | _, _, _, _ => none
        | _ => none
      | _ => none
    | '\\' :: [] => none
    | c :: rest =>
      if c.toNat < 32 then none
      else (parseStrBody fuel rest).map (fun p => (c :: p.1, p.2))

/-- Lex a JSON number starting at `cs` (which begins with `-` or a digit).
Returns the lexeme and the remaining input. -/
def parseNum (cs : List Char) : Option (String × List Char) :=
  let (sign, cs1) :=
    match cs with
    | '-' :: t => (['-'], t)
    | _ => (([] : List Char), cs)
  match cs1 with
  | 'I' :: 'n' :: 'f' :: 'i' :: 'n' :: 'i' :: 't' :: 'y' :: rest =>
    if sign.isEmpty then none else some ("-Infinity", rest)
  | _ =>
    let intPart := cs1.takeWhile Char.isDigit
    let rest1 := cs1.dropWhile Char.isDigit
    if intPart.isEmpty then none
    else if intPart.head? = some '0' && intPart.length ≠ 1 then none
    else
      let (fracPart, rest2) :=
        match rest1 with
        | '.' :: t =>
          let ds := t.takeWhile Char.isDigit
          if ds.isEmpty then ([], rest1)
          else ('.' :: ds, t.dropWhile Char.isDigit)
        | _ => (([] : List Char), rest1)
      let (expPart, rest3) :=
        match rest2 with
        | e :: t =>
          if e = 'e' || e = 'E' then
            let (sgn, t2) :=
              match t with
              | '+' :: u => (['+'], u)
              | '-' :: u => (['-'], u)
              | _ => (([] : List Char), t)
            let ds := t2.takeWhile Char.isDigit
            if ds.isEmpty then ([], rest2)
            else (e :: (sgn ++ ds), t2.dropWhile Char.isDigit)
          else ([], rest2)
        | _ => (([] : List Char), rest2)
      some (⟨sign ++ intPart ++ fracPart ++ expPart⟩, rest3)

mutual

/-- Parse one JSON value, fueled. -/
def parseVal : Nat → List Char → Option (Json × List Char)
  | 0, _ => none
  | fuel + 1, cs =>
    match skipWs cs with
    | 'n' :: 'u' :: 'l' :: 'l' :: rest => some (Json.null, rest)
    | 't' :: 'r' :: 'u' :: 'e' :: rest => some (Json.bool true, rest)
    | 'f' :: 'a' :: 'l' :: 's' :: 'e' :: rest => some (Json.bool false, rest)
    | 'N' :: 'a' :: 'N' :: rest => some (Json.num "NaN", rest)
    | 'I' :: 'n' :: 'f' :: 'i' :: 'n' :: 'i' :: 't' :: 'y' :: rest =>
      some (Json.num "Infinity", rest)
    | '"' :: rest =>
      (parseStrBody (rest.length + 1) rest).map
        (fun p => (Json.str ⟨p.1⟩, p.2))
    | '[' :: rest => parseArrTail fuel (skipWs rest)
    | '\x7b' :: rest => parseObjTail fuel (skipWs rest)
    | c :: rest =>
      if c = '-' || c.isDigit then
        (parseNum (c :: rest)).map (fun p => (Json.num p.1, p.2))
      else none
    | [] => none

/-- Parse the contents of an array after `[` and whitespace. -/
def parseArrTail : Nat → List Char → Option (Json × List Char)
  | 0, _ => none
  | fuel + 1, cs =>
    match cs with
    | ']' :: rest => some (Json.arr [], rest)
    | _ => parseItems fuel cs []

/-- Parse one-or-more comma-separated array items. -/
def parseItems : Nat → List Char → List Json → Option (Json × List Char)
  | 0, _, _ => none
  | fuel + 1, cs, acc =>
    match parseVal fuel cs with
    | none => none
    | some (v, rest) =>
      match skipWs rest with
      | ',' :: rest2 => parseItems fuel rest2 (acc ++ [v])
      | ']' :: rest2 => some (Json.arr (acc ++ [v]), rest2)
      | _ => none

/-- Parse the contents of an object after `{` and whitespace. -/
def parseObjTail : Nat → List Char → Option (Json × List Char)
  | 0, _ => none
  | fuel + 1, cs =>
    match cs with
    | '\x7d' :: rest => some (Json.obj [], rest)
    | _ => parseMembers fuel cs []

/-- Parse one-or-more comma-separated object members. -/
def parseMembers : Nat → List Char → List (String × Json) →
    Option (Json × List Char)
  | 0, _, _ => none
  | fuel + 1, cs, acc =>
    match skipWs cs with
    | '"' :: rest =>
      match parseStrBody (rest.length + 1) rest with
      | none => none
      | some (key, rest1) =>
        match skipWs rest1 with
        | ':' :: rest2 =>
          match parseVal fuel rest2 with
          | none => none
          | some (v, rest3) =>
            let acc' := objInsert acc ⟨key⟩ v
            match skipWs rest3 with
            | ',' :: rest4 => parseMembers fuel rest4 acc'
            | '\x7d' :: rest4 => some (Json.obj acc', rest4)
            | _ => none
        | _ => none
    | _ => none

end

/-- Python `json.loads`: parse a complete document, rejecting trailing
data.  `none` models a raised `json.JSONDecodeError`. -/
def jsonLoads (s : String) : Option Json :=
  match parseVal (4 * s.length + 8) s.data with
  | some (j, rest) => if (skipWs rest).isEmpty then some j else none
  | none => none

/-! ## `json.dumps(..., indent=2)` -/

/-- Four lowercase hex digits. -/
def hex4 (n : Nat) : String :=
  let d := fun k => (Nat.digitChar ((n / k) % 16))
  ⟨[d 4096, d 256, d 16, d 1]⟩

/-- Escape one character as `json.dumps` does with the default
`ensure_ascii=True` (basic multilingual plane only). -/
def jsonEscapeChar (c : Char) : String :=
  if c = '"' then "\\\""
  else if c = '\\' then "\\\\"
  else if c = '\n' then "\\n"
  else if c = '\t' then "\\t"
  else if c = '\r' then "\\r"
  else if c = '\x08' then "\\b"
  else if c = '\x0c' then "\\f"
  else if c.toNat < 32 || 126 < c.toNat then "\\u" ++ hex4 c.toNat
  else String.singleton c

/-- Render a string as a JSON string literal. -/
def jsonEscape (s : String) : String :=
  "\"" ++ String.join (s.data.map jsonEscapeChar) ++ "\""

/-- `n * 2` spaces of indentation. -/
def pad (lvl : Nat) : String :=
  ⟨List.replicate (lvl * 2) ' '⟩

/-- `json.dumps(j, indent=2)` rendered at nesting level `lvl`. -/
def jsonDumpsLvl (lvl : Nat) (j : Json) : String :=
  match j with
  | .null => "null"
  | .bool b => if b then "true" else "false"
  | .num lex => lex
  | .str s => jsonEscape s
  | .arr [] => "[]"
  | .arr (x :: xs) =>
    let items := (x :: xs).attach.map
      (fun y => pad (lvl + 1) ++ jsonDumpsLvl (lvl + 1) y.val)
    "[\n" ++ String.intercalate ",\n" items ++ "\n" ++ pad lvl ++ "]"
  | .obj [] => "\x7b\x7d"
  | .obj (kv :: kvs) =>
    let items := ((kv :: kvs)).attach.map
      (fun y => pad (lvl + 1) ++ jsonEscape y.val.fst ++ ": " ++
        jsonDumpsLvl (lvl + 1) y.val.snd)
    "\x7b\n" ++ String.intercalate ",\n" items ++ "\n" ++ pad lvl ++ "\x7d"
termination_by sizeOf j
decreasing_by
  all_goals
    have h1 := List.sizeOf_lt_of_mem y.property
  · simp only [Json.arr.sizeOf_spec]
    omega
  · have h2 : sizeOf y.val.snd < sizeOf y.val := by
      obtain ⟨a, b⟩ := y.val
      simp only [Prod.mk.sizeOf_spec]
      omega
    simp only [Json.obj.sizeOf_spec]
    omega

/-- `json.dumps(j, indent=2)`. -/
def jsonDumps (j : Json) : String :=
  jsonDumpsLvl 0 j

/-! ## Pattern scanner (`analyze_contract_patterns`)

The version pragma is extracted with
`re.search(r'pragma solidity\s+[\^]?([\d.]+)', content)`. -/

/-- The character class `[\d.]`. -/
def isDigitDot (c : Char) : Bool :=
  c.isDigit || c = '.'

/-- Try to drop the literal `lit` from the front of `cs`. -/
def dropLiteral : List Char → List Char → Option (List Char)
  | [], cs => some cs
  | _ :: _, [] => none
  | p :: ps, c :: cs => if p = c then dropLiteral ps cs else none

/-- Try to match `pragma solidity\s+[\^]?([\d.]+)` at the head of `cs`,
returning capture group 1.  `\s+` is greedy and no backtracking can help
it, so the maximal whitespace run is taken; likewise `[\d.]+` is maximal. -/
def pragmaAt (cs : List Char) : Option String :=
  match dropLiteral ("pragma solidity".data) cs with
  | none => none
  | some rest =>
    let ws := rest.takeWhile pyIsSpace
    if ws.isEmpty then none
    else
      let rest2 := rest.dropWhile pyIsSpace
      let rest3 :=
        match rest2 with
        | '^' :: t => t
        | _ => rest2
      let grp := rest3.takeWhile isDigitDot
      if grp.isEmpty then none else some ⟨grp⟩

/-- `re.search`: scan left to right for the first position where the
pragma pattern matches, returning capture group 1. -/
def searchPragma : List Char → Option String
  | [] => none
  | c :: rest =>
    match pragmaAt (c :: rest) with
    | some g => some g
    | none => searchPragma rest

/-- Python `str.split('.')`: split at every dot, keeping empty pieces. -/
def splitDot : List Char → List Char → List String
  | [], acc => [⟨acc.reverse⟩]
  | c :: rest, acc =>
    if c = '.' then ⟨acc.reverse⟩ :: splitDot rest []
    else splitDot rest (c :: acc)

/-- A non-empty all-digit string. -/
def allDigits (s : String) : Bool :=
  !s.isEmpty && s.data.all Char.isDigit

/-- Evaluate a non-empty all-digit string as a natural number
(Python `int`). -/
def strToNat (s : String) : Nat :=
  s.data.foldl (fun n c => n * 10 + (c.toNat - 48)) 0

/-- The `is_solidity_08_plus` flag: the first two dot-separated components
of the captured version parse as integers with major `= 0` and minor
`≥ 8`.  A missing pragma, fewer than two components, or an empty
component (whose `int` conversion raises) leaves the flag `False`. -/
def isSolidity08Plus (content : String) : Bool :=
  match searchPragma content.data with
  | none => false
  | some ver =>
    match splitDot ver.data [] with
    | a :: b :: _ =>
      if allDigits a && allDigits b then
        (strToNat a == 0) && (Nat.ble 8 (strToNat b))
      else false
    | _ => false

/-- Does the content match `[\+\-\*\/]`? -/
def hasArithChar (content : String) : Bool :=
  content.data.any (fun c => c = '+' || c = '-' || c = '*' || c = '/')

def msgSelfdestruct : String :=
  "WARNING: Contract contains selfdestruct - potential security risk"

def msgDelegatecall : String :=
  "WARNING: Contract uses delegatecall - ensure proper access control"

def msgTxOrigin : String :=
  "WARNING: Contract uses tx.origin - vulnerable to phishing attacks"

def msgOverflow : String :=
  "WARNING: Consider using SafeMath library or upgrading to Solidity 0.8+ for arithmetic overflow protection"

def msgTimestamp : String :=
  "INFO: Contract uses block.timestamp - be aware of miner manipulation"

def msgReentrancy : String :=
  "WARNING: Potential reentrancy risk - ensure checks-effects-interactions pattern"

/-- The ordered findings of the pattern scanner on decoded file content
(identical in both variants). -/
def patternFindings (content : String) : List String :=
  (if pyIn "selfdestruct" content then [msgSelfdestruct] else []) ++
  (if pyIn "delegatecall" content then [msgDelegatecall] else []) ++
  (if pyIn "tx.origin" content then [msgTxOrigin] else []) ++
  (if !pyIn "SafeMath" content && hasArithChar content &&
      !isSolidity08Plus content then [msgOverflow] else []) ++
  (if pyIn "block.timestamp" content then [msgTimestamp] else []) ++
  (if pyIn ".call\x7bvalue:" content then [msgReentrancy] else [])

/-- The rendered report (identical in both variants: the legacy f-string
joins with `chr(10)`, i.e. a newline). -/
def patternOutput (fs : List String) : String :=
  if fs.isEmpty then "No security issues found in pattern analysis"
  else
    "Pattern Analysis Results:\n\n" ++ String.intercalate "\n" fs ++
    "\n\nTotal: " ++ toString fs.length ++ " potential issues found"

/-! ## Results, the world, and subprocess execution -/

/-- The `AuditResult` record.  `findings` holds an arbitrary Python value:
the handlers normally store a list, but the normalizer assigns whatever
sits under the `results.detectors` / `issues` key. -/
structure AuditResult where
  success : Bool
  output : Option String := none
  error : Option String := none
  findings : Json := Json.arr []
deriving Repr

/-- The legacy `AuditResult.__init__` runs `self.findings = findings or []`,
collapsing any falsy findings value to the empty list. -/
def legacyResult (success : Bool) (output error : Option String)
    (findings : Json) : AuditResult :=
  ⟨success, output, error, if pyTruthy findings then findings else Json.arr []⟩

/-- A failure result, as built by every `return AuditResult(success=False,
error=...)` in either variant (output and findings left at their
defaults). -/
def fails (msg : String) : AuditResult :=
  ⟨false, none, some msg, Json.arr []⟩

/-- What one `subprocess.run` of a fixed argv does: raise on launch
(`FileNotFoundError` / `SubprocessError`, with `str(e)` recorded), or run
for `duration` seconds and complete. -/
structure ProcResult where
  returncode : Int
  stdout : String
  stderr : String
deriving Repr

inductive ProcBehavior where
  | fault (msg : String)
  | runs (duration : Nat) (res : ProcResult)

/-- The environment: the file system predicate behind `Path(p).is_file()`
(consulted only for non-empty paths; the empty path names the working
directory, never a regular file), `shutil.which`, subprocess behaviour per
argv, and file reads (`Except.error` carries `str(e)` of the raised
I/O or decode exception). -/
structure World where
  isFile : String → Bool
  which : String → Bool
  proc : List String → ProcBehavior
  readFile : String → Except String String

inductive SubpOutcome where
  | timedOut
  | fault (msg : String)
  | completed (res : ProcResult)

/-- `subprocess.run(args, capture_output=True, text=True, timeout=t)`:
raises `TimeoutExpired` when the process outlives the budget. -/
def subprocessRun (w : World) (args : List String) (timeoutSec : Nat) :
    SubpOutcome :=
  match w.proc args with
  | .fault m => .fault m
  | .runs d r => if timeoutSec < d then .timedOut else .completed r

/-- A record of the subprocess launches performed by a handler:
each entry is the argv and the timeout passed to `subprocess.run`. -/
abbrev Trace := List (List String × Nat)

/-- `file_exists` of the defensive variant: `None` and the empty string
are rejected before touching the file system. -/
def fileExists (w : World) : Option String → Bool
  | none => false
  | some s => if s.isEmpty then false else w.isFile s

/-! ## Shared tool-invocation pieces -/

/-- The slither argv: fixed template plus optional (truthy) detector
allow/deny lists. -/
def slitherArgs (cp : String) (detectors exclude_detectors : Option String) :
    List String :=
  ["slither", cp, "--json", "-"] ++
  (if optStrTruthy detectors then ["--detect", optStr detectors] else []) ++
  (if optStrTruthy exclude_detectors then
    ["--exclude", optStr exclude_detectors] else [])

/-- The mythril argv: the execution-timeout flag is appended when the
argument is truthy (present and non-zero). -/
def mythrilArgs (cp : String) (execution_timeout : Option Int) : List String :=
  ["myth", "analyze", cp, "-o", "json"] ++
  (match execution_timeout with
   | some t => if t == 0 then [] else ["--execution-timeout", toString t]
   | none => [])

/-- The non-zero-exit message chain:
`error_output = stderr.strip() or stdout.strip()`;
`message = error_output or f"<Tool> exited with code <n>"`. -/
def exitMessage (tool : String) (r : ProcResult) : String :=
  let errOutput :=
    if (pyStrip r.stderr).isEmpty then pyStrip r.stdout else pyStrip r.stderr
  if errOutput.isEmpty then
    tool ++ " exited with code " ++ toString r.returncode
  else errOutput

/-- The scanner's result normalizer on a zero-exit stdout:
`json.loads`, then `.get("results", {}).get("detectors", [])`.
A `JSONDecodeError` is swallowed (findings stay empty); an attribute
access on a non-dict raises, which the generic handler will wrap. -/
def slitherFindings (stdout : String) : Except String Json :=
  match jsonLoads stdout with
  | none => .ok (Json.arr [])
  | some (Json.obj kvs) =>
    match dictGet kvs "results" (Json.obj []) with
    | Json.obj kvs2 => .ok (dictGet kvs2 "detectors" (Json.arr []))
    | other => .error (attrGetErr other)
  | some other => .error (attrGetErr other)

/-- The symbolic-execution engine's normalizer:
`json.loads`, then `.get("issues", [])`. -/
def mythrilFindings (stdout : String) : Except String Json :=
  match jsonLoads stdout with
  | none => .ok (Json.arr [])
  | some (Json.obj kvs) => .ok (dictGet kvs "issues" (Json.arr []))
  | some other => .error (attrGetErr other)

def slitherInstallMsg : String :=
  "Slither is not installed. Please install it with: pip install slither-analyzer"

def aderynInstallMsg : String :=
  "Aderyn is not installed. Install it with Cyfrinup: curl -LsSf https://raw.githubusercontent.com/Cyfrin/up/main/install | bash && CYFRINUP_ONLY_INSTALL=aderyn cyfrinup"

def legacyAderynInstallMsg : String :=
  "Aderyn is not installed. Please install it with: cargo install aderyn"

def mythrilInstallMsg : String :=
  "Mythril is not installed. Please install it with: pip install mythril"

/-- `str(e)` of the `TypeError` raised by `Path(None)` in the legacy
`file_exists` when the path argument is absent. -/
def pathTypeErrMsg : String :=
  "argument should be a str or an os.PathLike object where __fspath__ returns a str, not <class 'NoneType'>"

/-! ## Defensive-variant handlers (`farofino_mcp/__main__.py`) -/

/-- `run_slither` (defensive). -/
def runSlither (w : World) (cp? : Option String)
    (detectors exclude_detectors : Option String) : AuditResult × Trace :=
  match cp? with
  | none => (fails "Missing required argument: contract_path", [])
  | some cp =>
    if cp.isEmpty then (fails "Missing required argument: contract_path", [])
    else if !w.isFile cp then (fails ("Contract file not found: " ++ cp), [])
    else if !w.which "slither" then (fails slitherInstallMsg, [])
    else
      let args := slitherArgs cp detectors exclude_detectors
      match subprocessRun w args 300 with
      | .timedOut => (fails "Slither analysis timed out", [(args, 300)])
      | .fault m => (fails ("Slither analysis failed: " ++ m), [(args, 300)])
      | .completed r =>
        if r.returncode == 0 then
          match slitherFindings r.stdout with
          | .ok f => (⟨true, some r.stdout, none, f⟩, [(args, 300)])
          | .error m =>
            (fails ("Slither analysis failed: " ++ m), [(args, 300)])
        else
          (fails ("Slither analysis failed: " ++ exitMessage "Slither" r),
            [(args, 300)])

/-- `run_aderyn` (defensive): no missing-argument precondition; an absent
path flows into `file_exists` and is reported as not-found
(`f"...: {contract_path}"` renders `None`). -/
def runAderyn (w : World) (cp? : Option String) : AuditResult × Trace :=
  match cp? with
  | none => (fails "Contract file not found: None", [])
  | some cp =>
    if cp.isEmpty then (fails ("Contract file not found: " ++ cp), [])
    else if !w.isFile cp then (fails ("Contract file not found: " ++ cp), [])
    else if !w.which "aderyn" then (fails aderynInstallMsg, [])
    else
      let args := ["aderyn", cp]
      match subprocessRun w args 300 with
      | .timedOut => (fails "Aderyn analysis timed out", [(args, 300)])
      | .fault m => (fails ("Aderyn analysis failed: " ++ m), [(args, 300)])
      | .completed r =>
        if r.returncode == 0 then
          (⟨true, some r.stdout, none, Json.arr []⟩, [(args, 300)])
        else
          (fails ("Aderyn analysis failed: " ++ exitMessage "Aderyn" r),
            [(args, 300)])

/-- `run_mythril` (defensive): no missing-argument precondition. -/
def runMythril (w : World) (cp? : Option String)
    (execution_timeout : Option Int) : AuditResult × Trace :=
  match cp? with
  | none => (fails "Contract file not found: None", [])
  | some cp =>
    if cp.isEmpty then (fails ("Contract file not found: " ++ cp), [])
    else if !w.isFile cp then (fails ("Contract file not found: " ++ cp), [])
    else if !w.which "myth" then (fails mythrilInstallMsg, [])
    else
      let args := mythrilArgs cp execution_timeout
      match subprocessRun w args 600 with
      | .timedOut => (fails "Mythril analysis timed out", [(args, 600)])
      | .fault m => (fails ("Mythril analysis failed: " ++ m), [(args, 600)])
      | .completed r =>
        if r.returncode == 0 then
          match mythrilFindings r.stdout with
          | .ok f => (⟨true, some r.stdout, none, f⟩, [(args, 600)])
          | .error m =>
            (fails ("Mythril analysis failed: " ++ m), [(args, 600)])
        else
          (fails ("Mythril analysis failed: " ++ exitMessage "Mythril" r),
            [(args, 600)])

/-- `analyze_contract_patterns` (defensive).  Launches no subprocess:
its trace is empty by construction. -/
def analyzePatterns (w : World) (cp? : Option String) : AuditResult × Trace :=
  match cp? with
  | none => (fails "Contract file not found: None", [])
  | some cp =>
    if cp.isEmpty then (fails ("Contract file not found: " ++ cp), [])
    else if !w.isFile cp then (fails ("Contract file not found: " ++ cp), [])
    else
      match w.readFile cp with
      | .error m => (fails ("Pattern analysis failed: " ++ m), [])
      | .ok content =>
        let fs := patternFindings content
        (⟨true, some (patternOutput fs), none, Json.arr (fs.map Json.str)⟩, [])

/-- `read_contract` (defensive). -/
def readContract (w : World) (cp? : Option String) : AuditResult × Trace :=
  match cp? with
  | none => (fails "Contract file not found: None", [])
  | some cp =>
    if cp.isEmpty then (fails ("Contract file not found: " ++ cp), [])
    else if !w.isFile cp then (fails ("Contract file not found: " ++ cp), [])
    else
      match w.readFile cp with
      | .error m => (fails ("Failed to read contract: " ++ m), [])
      | .ok content => (⟨true, some content, none, Json.arr []⟩, [])

/-! ## Availability prober (defensive variant only) -/

/-- `_get_tool_version`: try each candidate command with a 30-second
budget.  A launch fault or `TimeoutExpired` (both `SubprocessError`s) and
a non-zero exit are skipped; a zero exit whose text
(`stdout or stderr or ""`) strips to empty is also skipped; otherwise the
first line of the stripped text is returned. -/
def getToolVersion (w : World) : List (List String) → Option String × Trace
  | [] => (none, [])
  | cmd :: rest =>
    match subprocessRun w cmd 30 with
    | .fault _ =>
      let p := getToolVersion w rest
      (p.1, (cmd, 30) :: p.2)
    | .timedOut =>
      let p := getToolVersion w rest
      (p.1, (cmd, 30) :: p.2)
    | .completed r =>
      if r.returncode == 0 then
        let text := if r.stdout.isEmpty then r.stderr else r.stdout
        let candidate := pyStrip text
        if candidate.isEmpty then
          let p := getToolVersion w rest
          (p.1, (cmd, 30) :: p.2)
        else (some (firstLine candidate), [(cmd, 30)])
      else
        let p := getToolVersion w rest
        (p.1, (cmd, 30) :: p.2)

/-- `TOOL_VERSION_COMMANDS`. -/
def toolVersionCommands : String → List (List String)
  | "slither" => [["slither", "--version"]]
  | "aderyn" => [["aderyn", "--version"]]
  | "mythril" => [["myth", "--version"], ["myth", "version"]]
  | _ => []

structure ToolStatus where
  installed : Bool
  version : Option String
deriving Repr, DecidableEq

/-- The tool-name / binary-name table iterated by `check_tools`. -/
def toolBinaries : List (String × String) :=
  [("slither", "slither"), ("aderyn", "aderyn"), ("mythril", "myth")]

/-- One loop iteration of `check_tools`: probe the version only when the
binary resolves. -/
def probeTool (w : World) (tool binary : String) : ToolStatus × Trace :=
  if w.which binary then
    let p := getToolVersion w (toolVersionCommands tool)
    (⟨true, p.1⟩, p.2)
  else (⟨false, none⟩, [])

/-- The `tool_status` mapping built by `check_tools`. -/
def checkToolsStatus (w : World) : List (String × ToolStatus) :=
  toolBinaries.map (fun tb => (tb.fst, (probeTool w tb.fst tb.snd).fst))

/-- All subprocess launches performed by `check_tools`. -/
def checkToolsTrace (w : World) : Trace :=
  (toolBinaries.map (fun tb => (probeTool w tb.fst tb.snd).snd)).flatten

def toolStatusJson (st : ToolStatus) : Json :=
  Json.obj [("installed", Json.bool st.installed),
    ("version", match st.version with
      | none => Json.null
      | some v => Json.str v)]

/-- `TOOL_INSTALL_INSTRUCTIONS`. -/
def installInstructions : List (String × String) :=
  [("slither", "pip install slither-analyzer"),
   ("aderyn", "curl -LsSf https://raw.githubusercontent.com/Cyfrin/up/main/install | bash && CYFRINUP_ONLY_INSTALL=aderyn cyfrinup"),
   ("mythril", "pip install mythril")]

/-- `check_tools` (defensive). -/
def checkTools (w : World) : AuditResult × Trace :=
  let statuses := checkToolsStatus w
  let available := (statuses.filter (fun ts => ts.snd.installed)).map Prod.fst
  let missing :=
    (statuses.filter (fun ts => !(available.contains ts.fst))).map Prod.fst
  let details := Json.obj (statuses.map (fun ts => (ts.fst, toolStatusJson ts.snd)))
  let payload := Json.obj
    [("available", Json.arr (available.map Json.str)),
     ("missing", Json.arr (missing.map Json.str)),
     ("toolDetails", details),
     ("installInstructions",
       Json.obj (installInstructions.map (fun kv => (kv.fst, Json.str kv.snd))))]
  (⟨true, some (jsonDumps payload), none, Json.arr [details]⟩, checkToolsTrace w)

/-! ## Dispatcher (defensive) -/

/-- The argument bag: `arguments.get(...)` yields `None` for absent keys. -/
structure ToolArgs where
  contract_path : Option String
  detectors : Option String
  exclude_detectors : Option String
  execution_timeout : Option Int

/-- The empty argument bag. -/
def noArgs : ToolArgs := ⟨none, none, none, none⟩

/-- `execute_tool`. -/
def executeTool (w : World) (name : String) (args : ToolArgs) :
    AuditResult × Trace :=
  if name == "slither_audit" then
    runSlither w args.contract_path args.detectors args.exclude_detectors
  else if name == "aderyn_audit" then runAderyn w args.contract_path
  else if name == "mythril_audit" then
    runMythril w args.contract_path args.execution_timeout
  else if name == "pattern_analysis" then analyzePatterns w args.contract_path
  else if name == "read_contract" then readContract w args.contract_path
  else if name == "check_tools" then checkTools w
  else (fails ("Unknown tool: " ++ name), [])

/-- The defensive `call_tool` rendering of a result into its text payload:
failures render the error (with a generic fallback); successes render
`output`, or the JSON-encoded findings only when `output is None` and the
findings are truthy, or the empty string. -/
def renderResult (r : AuditResult) : String :=
  if !r.success then
    match r.error with
    | some e => if e.isEmpty then "Unknown error occurred" else e
    | none => "Unknown error occurred"
  else
    let payload : Option String :=
      if r.output.isNone && pyTruthy r.findings then some (jsonDumps r.findings)
      else r.output
    match payload with
    | none => ""
    | some s => s

/-- The legacy `call_tool` rendering:
`result.output or json.dumps(result.findings, indent=2)` (truthiness, not
a `None` test). -/
def legacyRender (r : AuditResult) : String :=
  if !r.success then
    match r.error with
    | some e => if e.isEmpty then "Unknown error occurred" else e
    | none => "Unknown error occurred"
  else
    match r.output with
    | some s => if s.isEmpty then jsonDumps r.findings else s
    | none => jsonDumps r.findings

/-! ## Legacy-variant handlers (`src/mcp_scaudit.py`)

The legacy `file_exists` calls `Path(path).is_file()` directly: an absent
path raises `TypeError`, caught by each handler's generic guard.  The
legacy handlers never inspect `returncode`. -/

/-- `run_slither` (legacy). -/
def legacyRunSlither (w : World) (cp? : Option String)
    (detectors exclude_detectors : Option String) : AuditResult × Trace :=
  match cp? with
  | none => (fails ("Slither analysis failed: " ++ pathTypeErrMsg), [])
  | some cp =>
    if cp.isEmpty then (fails ("Contract file not found: " ++ cp), [])
    else if !w.isFile cp then (fails ("Contract file not found: " ++ cp), [])
    else if !w.which "slither" then (fails slitherInstallMsg, [])
    else
      let args := slitherArgs cp detectors exclude_detectors
      match subprocessRun w args 300 with
      | .timedOut => (fails "Slither analysis timed out", [(args, 300)])
      | .fault m => (fails ("Slither analysis failed: " ++ m), [(args, 300)])
      | .completed r =>
        match slitherFindings r.stdout with
        | .ok f => (legacyResult true (some r.stdout) none f, [(args, 300)])
        | .error m =>
          (fails ("Slither analysis failed: " ++ m), [(args, 300)])

/-- `run_aderyn` (legacy). -/
def legacyRunAderyn (w : World) (cp? : Option String) : AuditResult × Trace :=
  match cp? with
  | none => (fails ("Aderyn analysis failed: " ++ pathTypeErrMsg), [])
  | some cp =>
    if cp.isEmpty then (fails ("Contract file not found: " ++ cp), [])
    else if !w.isFile cp then (fails ("Contract file not found: " ++ cp), [])
    else if !w.which "aderyn" then (fails legacyAderynInstallMsg, [])
    else
      let args := ["aderyn", cp]
      match subprocessRun w args 300 with
      | .timedOut => (fails "Aderyn analysis timed out", [(args, 300)])
      | .fault m => (fails ("Aderyn analysis failed: " ++ m), [(args, 300)])
      | .completed r =>
        (⟨true, some r.stdout, none, Json.arr []⟩, [(args, 300)])

/-- `run_mythril` (legacy). -/
def legacyRunMythril (w : World) (cp? : Option String)
    (execution_timeout : Option Int) : AuditResult × Trace :=
  match cp? with
  | none => (fails ("Mythril analysis failed: " ++ pathTypeErrMsg), [])
  | some cp =>
    if cp.isEmpty then (fails ("Contract file not found: " ++ cp), [])
    else if !w.isFile cp then (fails ("Contract file not found: " ++ cp), [])
    else if !w.which "myth" then (fails mythrilInstallMsg, [])
    else
      let args := mythrilArgs cp execution_timeout
      match subprocessRun w args 600 with
      | .timedOut => (fails "Mythril analysis timed out", [(args, 600)])
      | .fault m => (fails ("Mythril analysis failed: " ++ m), [(args, 600)])
      | .completed r =>
        match mythrilFindings r.stdout with
        | .ok f => (legacyResult true (some r.stdout) none f, [(args, 600)])
        | .error m =>
          (fails ("Mythril analysis failed: " ++ m), [(args, 600)])

/-- `analyze_contract_patterns` (legacy). -/
def legacyAnalyzePatterns (w : World) (cp? : Option String) :
    AuditResult × Trace :=
  match cp? with
  | none => (fails ("Pattern analysis failed: " ++ pathTypeErrMsg), [])
  | some cp =>
    if cp.isEmpty then (fails ("Contract file not found: " ++ cp), [])
    else if !w.isFile cp then (fails ("Contract file not found: " ++ cp), [])
    else
      match w.readFile cp with
      | .error m => (fails ("Pattern analysis failed: " ++ m), [])
      | .ok content =>
        let fs := patternFindings content
        (legacyResult true (some (patternOutput fs)) none
          (Json.arr (fs.map Json.str)), [])

/-- `read_contract` (legacy). -/
def legacyReadContract (w : World) (cp? : Option String) :
    AuditResult × Trace :=
  match cp? with
  | none => (fails ("Failed to read contract: " ++ pathTypeErrMsg), [])
  | some cp =>
    if cp.isEmpty then (fails ("Contract file not found: " ++ cp), [])
    else if !w.isFile cp then (fails ("Contract file not found: " ++ cp), [])
    else
      match w.readFile cp with
      | .error m => (fails ("Failed to read contract: " ++ m), [])
      | .ok content => (⟨true, some content, none, Json.arr []⟩, [])

/-! ## Concrete worlds used by witnesses and counterexamples -/

/-- A bare world: no files, no binaries, every read fails. -/
def wDefault : World :=
  ⟨fun _ => false, fun _ => false, fun _ => .runs 0 ⟨0, "", ""⟩,
    fun _ => .error "unreadable"⟩

/-- The end-to-end pattern-analysis scenario: a readable contract with
`selfdestruct`, `delegatecall` and `tx.origin`, a `^0.8.0` pragma and no
arithmetic operator. -/
def contentRisky : String :=
  "pragma solidity ^0.8.0;\nselfdestruct delegatecall tx.origin"

def wRisky : World :=
  ⟨fun s => s == "risky.sol", fun _ => false,
    fun _ => .runs 0 ⟨0, "", ""⟩,
    fun s => if s == "risky.sol" then .ok contentRisky else .error "unreadable"⟩

/-! ## Helper lemmas -/

theorem mem_ite_singleton {α : Type} {c : Prop} [Decidable c] {a x : α} :
    a ∈ (if c then [x] else []) ↔ c ∧ a = x := by
  by_cases h : c <;> simp [h]

theorem not_mem_ite_singleton {α : Type} {c : Prop} [Decidable c] {a x : α}
    (h : a ≠ x) : a ∉ (if c then [x] else []) := by
  by_cases hc : c <;> simp [hc, h]

theorem append_ne_empty_left (a b : String) (h : a.data ≠ []) :
    a ++ b ≠ "" := by
  obtain ⟨la⟩ := a
  obtain ⟨lb⟩ := b
  intro hab
  apply h
  have hd : la ++ lb = ([] : List Char) := congrArg String.data hab
  rcases List.append_eq_nil.mp hd with ⟨h1, _⟩
  simpa using h1

theorem isEmpty_false_of_ne (s : String) (h : s ≠ "") : s.isEmpty = false := by
  cases hs : s.isEmpty
  · rfl
  · exact absurd ((String.isEmpty_iff s).mp hs) h

theorem isEmpty_empty : "".isEmpty = true := rfl

/-! ## C4 -/

/-- C4: the pattern scanner emits the overflow-protection warning exactly
when the content lacks the substring "SafeMath", contains one of the
characters `+ - * /`, and the parsed pragma version is not
safe-arithmetic (`major == 0 && minor >= 8`, with absent or malformed
versions counting as not-safe, as `isSolidity08Plus` implements); and at
the boundary, `^0.8.0` content with an arithmetic operator and no
"SafeMath" yields no overflow warning while identical `^0.6.0` content
does. -/
theorem c4_overflow_gate :
    (∀ content : String,
      msgOverflow ∈ patternFindings content ↔
        (pyIn "SafeMath" content = false ∧ hasArithChar content = true ∧
          isSolidity08Plus content = false)) ∧
    msgOverflow ∉ patternFindings
      "pragma solidity ^0.8.0;\ncontract C \x7b uint a = b + c; \x7d" ∧
    msgOverflow ∈ patternFindings
      "pragma solidity ^0.6.0;\ncontract C \x7b uint a = b + c; \x7d" := by
  refine ⟨?_, by decide, by decide⟩
  intro content
  have hg : (!pyIn "SafeMath" content && hasArithChar content &&
      !isSolidity08Plus content) = true ↔
      (pyIn "SafeMath" content = false ∧ hasArithChar content = true ∧
        isSolidity08Plus content = false) := by
    constructor
    · intro h
      simp only [Bool.and_eq_true, Bool.not_eq_true'] at h
      tauto
    · rintro ⟨h1, h2, h3⟩
      simp [h1, h2, h3]
  constructor
  · intro hmem
    apply hg.mp
    simp only [patternFindings, List.mem_append, mem_ite_singleton] at hmem
    rcases hmem with
      ((((⟨c, e⟩ | ⟨c, e⟩) | ⟨c, e⟩) | ⟨c, -⟩) | ⟨c, e⟩) | ⟨c, e⟩
    · exact absurd e (by decide)
    · exact absurd e (by decide)
    · exact absurd e (by decide)
    · exact c
    · exact absurd e (by decide)
    · exact absurd e (by decide)
  · intro h
    have hb := hg.mpr h
    simp [patternFindings, hb]

/-! ## C7 -/

/-- C7: for every readable file the pattern scanner succeeds with
findings equal to the ordered triggered messages; the output is the
fixed-format report (header, blank line, one finding per line, blank
line, total line) when findings exist and the literal no-issues string
otherwise; and the end-to-end risky-contract scenario yields success,
exactly the three expected findings, and an output containing
"Total: 3 potential issues found". -/
theorem c7_pattern_report :
    (∀ (w : World) (cp content : String), cp ≠ "" → w.isFile cp = true →
      w.readFile cp = .ok content →
      (analyzePatterns w (some cp)).1 =
        ⟨true, some (patternOutput (patternFindings content)), none,
          Json.arr ((patternFindings content).map Json.str)⟩) ∧
    (∀ fs : List String, fs ≠ [] →
      patternOutput fs =
        "Pattern Analysis Results:\n\n" ++ String.intercalate "\n" fs ++
          "\n\nTotal: " ++ toString fs.length ++ " potential issues found") ∧
    patternOutput [] = "No security issues found in pattern analysis" ∧
    ((analyzePatterns wRisky (some "risky.sol")).1.success = true ∧
      (analyzePatterns wRisky (some "risky.sol")).1.findings =
        Json.arr [Json.str msgSelfdestruct, Json.str msgDelegatecall,
          Json.str msgTxOrigin] ∧
      pyIn "Total: 3 potential issues found"
        (optStr (analyzePatterns wRisky (some "risky.sol")).1.output) = true) := by
  refine ⟨?_, ?_, rfl, rfl, rfl, by decide⟩
  · intro w cp content hne hfile hread
    simp only [analyzePatterns, isEmpty_false_of_ne cp hne, hfile, hread,
      Bool.not_true, Bool.false_eq_true, if_false]
  · intro fs hfs
    simp only [patternOutput, List.isEmpty_eq_true, hfs, if_false]

/-- C7 witness: the general conjunct applied to the risky world. -/
theorem c7_pattern_report_witness :
    (analyzePatterns wRisky (some "risky.sol")).1 =
      ⟨true, some (patternOutput (patternFindings contentRisky)), none,
        Json.arr ((patternFindings contentRisky).map Json.str)⟩ :=
  c7_pattern_report.1 wRisky "risky.sol" contentRisky (by decide) rfl rfl

/-! ## C1 -/

/-- C1 counterexample: on an absent path the linter, the symbolic engine
and the pattern scanner return the `ContractNotFound` message (the
f-string renders `None`), not the `MissingArgument` failure the claim
asserts for every analysis action. -/
theorem c1_counterexample :
    (runAderyn wDefault none).1 = fails "Contract file not found: None" ∧
    (runAderyn wDefault none).1.error ≠
      some "Missing required argument: contract_path" ∧
    (runMythril wDefault none none).1.error ≠
      some "Missing required argument: contract_path" ∧
    (analyzePatterns wDefault none).1.error ≠
      some "Missing required argument: contract_path" := by
  exact ⟨rfl, by decide, by decide, by decide⟩

/-- C1 (amended): the scanner checks its preconditions in order —
absent/empty path → `MissingArgument`, non-file → `ContractNotFound`,
unresolvable executable → `ToolNotInstalled` embedding the canned install
command.  The linter and the symbolic engine have no missing-argument
check: an absent or empty path falls into the file check and yields
`ContractNotFound`; the pattern scanner checks only the file
precondition.  In every such failure case the subprocess trace is
empty. -/
theorem c1_preconditions_amended :
    (∀ w d e, runSlither w none d e =
      (fails "Missing required argument: contract_path", []) ∧
      runSlither w (some "") d e =
        (fails "Missing required argument: contract_path", [])) ∧
    (∀ w cp d e, cp ≠ "" → w.isFile cp = false →
      runSlither w (some cp) d e =
        (fails ("Contract file not found: " ++ cp), [])) ∧
    (∀ w cp d e, cp ≠ "" → w.isFile cp = true → w.which "slither" = false →
      runSlither w (some cp) d e = (fails slitherInstallMsg, []) ∧
      pyIn "pip install slither-analyzer" slitherInstallMsg = true) ∧
    (∀ w, runAderyn w none = (fails "Contract file not found: None", []) ∧
      runAderyn w (some "") = (fails ("Contract file not found: " ++ ""), [])) ∧
    (∀ w cp, cp ≠ "" → w.isFile cp = false →
      runAderyn w (some cp) = (fails ("Contract file not found: " ++ cp), [])) ∧
    (∀ w cp, cp ≠ "" → w.isFile cp = true → w.which "aderyn" = false →
      runAderyn w (some cp) = (fails aderynInstallMsg, []) ∧
      pyIn "curl -LsSf https://raw.githubusercontent.com/Cyfrin/up/main/install | bash && CYFRINUP_ONLY_INSTALL=aderyn cyfrinup"
        aderynInstallMsg = true) ∧
    (∀ w t, runMythril w none t = (fails "Contract file not found: None", []) ∧
      runMythril w (some "") t =
        (fails ("Contract file not found: " ++ ""), [])) ∧
    (∀ w cp t, cp ≠ "" → w.isFile cp = false →
      runMythril w (some cp) t =
        (fails ("Contract file not found: " ++ cp), [])) ∧
    (∀ w cp t, cp ≠ "" → w.isFile cp = true → w.which "myth" = false →
      runMythril w (some cp) t = (fails mythrilInstallMsg, []) ∧
      pyIn "pip install mythril" mythrilInstallMsg = true) ∧
    (∀ w,
      analyzePatterns w none = (fails "Contract file not found: None", []) ∧
      analyzePatterns w (some "") =
        (fails ("Contract file not found: " ++ ""), [])) ∧
    (∀ w cp, cp ≠ "" → w.isFile cp = false →
      analyzePatterns w (some cp) =
        (fails ("Contract file not found: " ++ cp), [])) := by
  refine ⟨fun w d e => ⟨rfl, rfl⟩, ?_, ?_, fun w => ⟨rfl, rfl⟩, ?_, ?_,
    fun w t => ⟨rfl, rfl⟩, ?_, ?_, fun w => ⟨rfl, rfl⟩, ?_⟩
  · intro w cp d e hne hf
    simp [runSlither, isEmpty_false_of_ne cp hne, hf]
  · intro w cp d e hne hf hw
    refine ⟨?_, by decide⟩
    simp [runSlither, isEmpty_false_of_ne cp hne, hf, hw]
  · intro w cp hne hf
    simp [runAderyn, isEmpty_false_of_ne cp hne, hf]
  · intro w cp hne hf hw
    refine ⟨?_, by decide⟩
    simp [runAderyn, isEmpty_false_of_ne cp hne, hf, hw]
  · intro w cp t hne hf
    simp [runMythril, isEmpty_false_of_ne cp hne, hf]
  · intro w cp t hne hf hw
    refine ⟨?_, by decide⟩
    simp [runMythril, isEmpty_false_of_ne cp hne, hf, hw]
  · intro w cp hne hf
    simp [analyzePatterns, isEmpty_false_of_ne cp hne, hf]

/-- C1 witness: the amended `ContractNotFound` conjunct for the scanner
at a concrete world and path. -/
theorem c1_preconditions_amended_witness :
    runSlither wDefault (some "a.sol") none none =
      (fails ("Contract file not found: " ++ "a.sol"), []) :=
  c1_preconditions_amended.2.1 wDefault "a.sol" none none (by decide) rfl

/-! ## C2 -/

/-- A world whose subprocess exits 1 with stderr "boom". -/
def wExit1 : World :=
  ⟨fun _ => true, fun _ => true, fun _ => .runs 0 ⟨1, "", "boom"⟩,
    fun _ => .error "unreadable"⟩

/-- A world whose subprocess exits 0 with a JSON-list stdout. -/
def wListOut : World :=
  ⟨fun _ => true, fun _ => true, fun _ => .runs 0 ⟨0, "[]", ""⟩,
    fun _ => .error "unreadable"⟩

/-- C2 counterexample: on a non-zero exit the error message is not the
trimmed stderr but carries the "Slither analysis failed: " prefix; and a
zero exit does not always yield success — a stdout decoding to a JSON
list makes the findings extraction raise, so the result is a failure. -/
theorem c2_counterexample :
    (runSlither wExit1 (some "a.sol") none none).1.error =
      some ("Slither analysis failed: " ++ "boom") ∧
    (runSlither wExit1 (some "a.sol") none none).1.error ≠ some "boom" ∧
    (runSlither wListOut (some "a.sol") none none).1.success = false := by
  exact ⟨rfl, by decide, rfl⟩

/-- C2 (amended): in the defensive variant, for every external-tool
invocation whose subprocess completes within the timeout, a non-zero
exit yields a failure whose error is "<Tool> analysis failed: " followed
by the trimmed stderr, falling back to the trimmed stdout, falling back
to "<Tool> exited with code <n>"; a zero exit yields the normalizer's
verdict: a success carrying the raw stdout and the extracted findings,
except that a raising extraction is wrapped into a generic failure.  (The
legacy variant ignores exit codes entirely; see the C3 development.) -/
theorem c2_exit_code_amended :
    (∀ w cp d e r, cp ≠ "" → w.isFile cp = true → w.which "slither" = true →
      subprocessRun w (slitherArgs cp d e) 300 = .completed r →
      (r.returncode ≠ 0 →
        (runSlither w (some cp) d e).1 =
          fails ("Slither analysis failed: " ++ exitMessage "Slither" r)) ∧
      (r.returncode = 0 →
        (runSlither w (some cp) d e).1 =
          (match slitherFindings r.stdout with
           | .ok f => ⟨true, some r.stdout, none, f⟩
           | .error m => fails ("Slither analysis failed: " ++ m)))) ∧
    (∀ w cp r, cp ≠ "" → w.isFile cp = true → w.which "aderyn" = true →
      subprocessRun w ["aderyn", cp] 300 = .completed r →
      (r.returncode ≠ 0 →
        (runAderyn w (some cp)).1 =
          fails ("Aderyn analysis failed: " ++ exitMessage "Aderyn" r)) ∧
      (r.returncode = 0 →
        (runAderyn w (some cp)).1 =
          ⟨true, some r.stdout, none, Json.arr []⟩)) ∧
    (∀ w cp t r, cp ≠ "" → w.isFile cp = true → w.which "myth" = true →
      subprocessRun w (mythrilArgs cp t) 600 = .completed r →
      (r.returncode ≠ 0 →
        (runMythril w (some cp) t).1 =
          fails ("Mythril analysis failed: " ++ exitMessage "Mythril" r)) ∧
      (r.returncode = 0 →
        (runMythril w (some cp) t).1 =
          (match mythrilFindings r.stdout with
           | .ok f => ⟨true, some r.stdout, none, f⟩
           | .error m => fails ("Mythril analysis failed: " ++ m)))) ∧
    (∀ tool r, pyStrip r.stderr ≠ "" → exitMessage tool r = pyStrip r.stderr) ∧
    (∀ tool r, pyStrip r.stderr = "" → pyStrip r.stdout ≠ "" →
      exitMessage tool r = pyStrip r.stdout) ∧
    (∀ tool r, pyStrip r.stderr = "" → pyStrip r.stdout = "" →
      exitMessage tool r =
        tool ++ " exited with code " ++ toString r.returncode) := by
  refine ⟨?_, ?_, ?_, ?_, ?_, ?_⟩
  · intro w cp d e r hne hf hw hsub
    constructor
    · intro hrc
      have hb : (r.returncode == 0) = false := by simp [hrc]
      simp [runSlither, isEmpty_false_of_ne cp hne, hf, hw, hsub, hb]
    · intro hrc
      have hb : (r.returncode == 0) = true := by simp [hrc]
      cases hsf : slitherFindings r.stdout with
      | ok f =>
        simp [runSlither, isEmpty_false_of_ne cp hne, hf, hw, hsub, hb, hsf]
      | error m =>
        simp [runSlither, isEmpty_false_of_ne cp hne, hf, hw, hsub, hb, hsf]
  · intro w cp r hne hf hw hsub
    constructor
    · intro hrc
      have hb : (r.returncode == 0) = false := by simp [hrc]
      simp [runAderyn, isEmpty_false_of_ne cp hne, hf, hw, hsub, hb]
    · intro hrc
      have hb : (r.returncode == 0) = true := by simp [hrc]
      simp [runAderyn, isEmpty_false_of_ne cp hne, hf, hw, hsub, hb]
  · intro w cp t r hne hf hw hsub
    constructor
    · intro hrc
      have hb : (r.returncode == 0) = false := by simp [hrc]
      simp [runMythril, isEmpty_false_of_ne cp hne, hf, hw, hsub, hb]
    · intro hrc
      have hb : (r.returncode == 0) = true := by simp [hrc]
      cases hsf : mythrilFindings r.stdout with
      | ok f =>
        simp [runMythril, isEmpty_false_of_ne cp hne, hf, hw, hsub, hb, hsf]
      | error m =>
        simp [runMythril, isEmpty_false_of_ne cp hne, hf, hw, hsub, hb, hsf]
  · intro tool r h
    simp [exitMessage, isEmpty_false_of_ne _ h]
  · intro tool r h1 h2
    simp [exitMessage, h1, isEmpty_empty, isEmpty_false_of_ne _ h2]
  · intro tool r h1 h2
    simp [exitMessage, h1, h2, isEmpty_empty]

/-- C2 witness: the non-zero-exit conjunct at the concrete boom world. -/
theorem c2_exit_code_amended_witness :
    (runSlither wExit1 (some "a.sol") none none).1 =
      fails ("Slither analysis failed: " ++
        exitMessage "Slither" ⟨1, "", "boom"⟩) :=
  (c2_exit_code_amended.1 wExit1 "a.sol" none none ⟨1, "", "boom"⟩
    (by decide) rfl rfl rfl).1 (by decide)

/-! ## C6 -/

/-- A world whose subprocess exits 0 with stdout "null" (valid JSON that
is not an object). -/
def wNullOut : World :=
  ⟨fun _ => true, fun _ => true, fun _ => .runs 0 ⟨0, "null", ""⟩,
    fun _ => .error "unreadable"⟩

/-- C6 counterexample: stdout "null" decodes as JSON `null`; the
`.get("results", ...)` attribute access then raises, and the generic
guard flips success to false — contradicting the claim that a zero-exit
decode issue leaves a success with empty findings and raw output. -/
theorem c6_counterexample :
    jsonLoads "null" = some Json.null ∧
    (runSlither wNullOut (some "a.sol") none none).1.success = false ∧
    (runSlither wNullOut (some "a.sol") none none).1.output = none ∧
    (runSlither wNullOut (some "a.sol") none none).1.error =
      some ("Slither analysis failed: " ++
        "'NoneType' object has no attribute 'get'") := by
  exact ⟨rfl, rfl, rfl, rfl⟩

/-- C6 (amended): on a zero exit, a JSON decode failure never flips
success — the result is a success with empty findings and the raw stdout;
when stdout decodes to an object, findings is the value at
`results.detectors` (scanner) or `issues` (symbolic engine) with absent
keys defaulting to empty; but when stdout decodes to a non-object — or,
for the scanner, when `results` holds a non-object — the attribute access
raises and the generic guard converts the call into a failure result. -/
theorem c6_normalizer_amended :
    (∀ stdout, jsonLoads stdout = none →
      slitherFindings stdout = .ok (Json.arr []) ∧
      mythrilFindings stdout = .ok (Json.arr [])) ∧
    (∀ stdout kvs kvs2, jsonLoads stdout = some (Json.obj kvs) →
      dictGet kvs "results" (Json.obj []) = Json.obj kvs2 →
      slitherFindings stdout = .ok (dictGet kvs2 "detectors" (Json.arr []))) ∧
    (∀ stdout kvs j, jsonLoads stdout = some (Json.obj kvs) →
      dictGet kvs "results" (Json.obj []) = j → (∀ kvs2, j ≠ Json.obj kvs2) →
      slitherFindings stdout = .error (attrGetErr j)) ∧
    (∀ stdout kvs, jsonLoads stdout = some (Json.obj kvs) →
      mythrilFindings stdout = .ok (dictGet kvs "issues" (Json.arr []))) ∧
    (∀ stdout j, jsonLoads stdout = some j → (∀ kvs, j ≠ Json.obj kvs) →
      slitherFindings stdout = .error (attrGetErr j) ∧
      mythrilFindings stdout = .error (attrGetErr j)) ∧
    (∀ w cp d e r, cp ≠ "" → w.isFile cp = true → w.which "slither" = true →
      subprocessRun w (slitherArgs cp d e) 300 = .completed r →
      r.returncode = 0 →
      (∀ f, slitherFindings r.stdout = .ok f →
        (runSlither w (some cp) d e).1 = ⟨true, some r.stdout, none, f⟩) ∧
      (∀ m, slitherFindings r.stdout = .error m →
        (runSlither w (some cp) d e).1 =
          fails ("Slither analysis failed: " ++ m))) := by
  refine ⟨?_, ?_, ?_, ?_, ?_, ?_⟩
  · intro stdout h
    constructor <;> simp [slitherFindings, mythrilFindings, h]
  · intro stdout kvs kvs2 h hres
    simp [slitherFindings, h, hres]
  · intro stdout kvs j h hres hne
    cases j with
    | obj kvs2 => exact absurd rfl (hne kvs2)
    | null => simp [slitherFindings, h, hres]
    | bool b => simp [slitherFindings, h, hres]
    | num lex => simp [slitherFindings, h, hres]
    | str s => simp [slitherFindings, h, hres]
    | arr xs => simp [slitherFindings, h, hres]
  · intro stdout kvs h
    simp [mythrilFindings, h]
  · intro stdout j h hne
    cases j with
    | obj kvs => exact absurd rfl (hne kvs)
    | null => constructor <;> simp [slitherFindings, mythrilFindings, h]
    | bool b => constructor <;> simp [slitherFindings, mythrilFindings, h]
    | num lex => constructor <;> simp [slitherFindings, mythrilFindings, h]
    | str s => constructor <;> simp [slitherFindings, mythrilFindings, h]
    | arr xs => constructor <;> simp [slitherFindings, mythrilFindings, h]
  · intro w cp d e r hne hf hw hsub hrc
    have hb : (r.returncode == 0) = true := by simp [hrc]
    constructor
    · intro f hsf
      simp [runSlither, isEmpty_false_of_ne cp hne, hf, hw, hsub, hb, hsf]
    · intro m hsf
      simp [runSlither, isEmpty_false_of_ne cp hne, hf, hw, hsub, hb, hsf]

/-- C6 witness: the decode-failure conjunct at a non-JSON stdout. -/
theorem c6_normalizer_amended_witness :
    slitherFindings "not json" = .ok (Json.arr []) ∧
    mythrilFindings "not json" = .ok (Json.arr []) :=
  c6_normalizer_amended.1 "not json" rfl

/-! ## C8 -/

/-- A world whose every subprocess outlives any analysis budget. -/
def wSlow : World :=
  ⟨fun _ => true, fun _ => true, fun _ => .runs 601 ⟨0, "partial", "late"⟩,
    fun _ => .error "unreadable"⟩

/-- C8: once its preconditions pass, each analysis handler launches
exactly one subprocess, with a 300-second budget for the scanner and the
linter and a 600-second budget for the symbolic-execution engine; a
process outliving the budget produces the failure result with the
tool-specific "<tool> analysis timed out" message and no retained output
or findings. -/
theorem c8_timeouts :
    (∀ w cp d e, cp ≠ "" → w.isFile cp = true → w.which "slither" = true →
      (runSlither w (some cp) d e).2 = [(slitherArgs cp d e, 300)] ∧
      (∀ dur r, w.proc (slitherArgs cp d e) = .runs dur r → 300 < dur →
        (runSlither w (some cp) d e).1 =
          fails "Slither analysis timed out")) ∧
    (∀ w cp, cp ≠ "" → w.isFile cp = true → w.which "aderyn" = true →
      (runAderyn w (some cp)).2 = [(["aderyn", cp], 300)] ∧
      (∀ dur r, w.proc ["aderyn", cp] = .runs dur r → 300 < dur →
        (runAderyn w (some cp)).1 = fails "Aderyn analysis timed out")) ∧
    (∀ w cp t, cp ≠ "" → w.isFile cp = true → w.which "myth" = true →
      (runMythril w (some cp) t).2 = [(mythrilArgs cp t, 600)] ∧
      (∀ dur r, w.proc (mythrilArgs cp t) = .runs dur r → 600 < dur →
        (runMythril w (some cp) t).1 =
          fails "Mythril analysis timed out")) := by
  refine ⟨?_, ?_, ?_⟩
  · intro w cp d e hne hf hw
    constructor
    · cases h : subprocessRun w (slitherArgs cp d e) 300 with
      | timedOut => simp [runSlither, isEmpty_false_of_ne cp hne, hf, hw, h]
      | fault m => simp [runSlither, isEmpty_false_of_ne cp hne, hf, hw, h]
      | completed r =>
        simp only [runSlither, isEmpty_false_of_ne cp hne, hf, hw, h,
          Bool.not_true, Bool.false_eq_true, if_false]
        split <;> (try split) <;> rfl
    · intro dur r hproc hdur
      have hsub : subprocessRun w (slitherArgs cp d e) 300 = .timedOut := by
        simp [subprocessRun, hproc, hdur]
      simp [runSlither, isEmpty_false_of_ne cp hne, hf, hw, hsub]
  · intro w cp hne hf hw
    constructor
    · cases h : subprocessRun w ["aderyn", cp] 300 with
      | timedOut => simp [runAderyn, isEmpty_false_of_ne cp hne, hf, hw, h]
      | fault m => simp [runAderyn, isEmpty_false_of_ne cp hne, hf, hw, h]
      | completed r =>
        simp only [runAderyn, isEmpty_false_of_ne cp hne, hf, hw, h,
          Bool.not_true, Bool.false_eq_true, if_false]
        split <;> rfl
    · intro dur r hproc hdur
      have hsub : subprocessRun w ["aderyn", cp] 300 = .timedOut := by
        simp [subprocessRun, hproc, hdur]
      simp [runAderyn, isEmpty_false_of_ne cp hne, hf, hw, hsub]
  · intro w cp t hne hf hw
    constructor
    · cases h : subprocessRun w (mythrilArgs cp t) 600 with
      | timedOut => simp [runMythril, isEmpty_false_of_ne cp hne, hf, hw, h]
      | fault m => simp [runMythril, isEmpty_false_of_ne cp hne, hf, hw, h]
      | completed r =>
        simp only [runMythril, isEmpty_false_of_ne cp hne, hf, hw, h,
          Bool.not_true, Bool.false_eq_true, if_false]
        split <;> (try split) <;> rfl
    · intro dur r hproc hdur
      have hsub : subprocessRun w (mythrilArgs cp t) 600 = .timedOut := by
        simp [subprocessRun, hproc, hdur]
      simp [runMythril, isEmpty_false_of_ne cp hne, hf, hw, hsub]

/-- C8 witness: the symbolic-execution conjunct at a world whose process
runs 601 seconds. -/
theorem c8_timeouts_witness :
    (runMythril wSlow (some "a.sol") none).2 =
      [(mythrilArgs "a.sol" none, 600)] ∧
    (runMythril wSlow (some "a.sol") none).1 =
      fails "Mythril analysis timed out" := by
  have h := c8_timeouts.2.2 wSlow "a.sol" none (by decide) rfl rfl
  exact ⟨h.1, h.2 601 ⟨0, "partial", "late"⟩ rfl (by decide)⟩

/-! ## C5 -/

/-- A world where `myth --version` exits 0 with whitespace-only stdout
and `myth version` exits 0 with a version line. -/
def wProbe : World :=
  ⟨fun _ => false, fun c => c == "myth",
    fun args =>
      if args == ["myth", "--version"] then .runs 0 ⟨0, "  ", ""⟩
      else if args == ["myth", "version"] then .runs 0 ⟨0, "Mythril v0.24", ""⟩
      else .runs 0 ⟨0, "", ""⟩,
    fun _ => .error "unreadable"⟩

/-- C5 counterexample: the first candidate command launches without
fault and exits zero, yet the prober does not stop there — its
whitespace-only output is skipped and the version comes from the second
candidate, so the version is neither absent nor derived from the first
command's output. -/
theorem c5_counterexample :
    subprocessRun wProbe ["myth", "--version"] 30 =
      .completed ⟨0, "  ", ""⟩ ∧
    (getToolVersion wProbe (toolVersionCommands "mythril")).1 =
      some "Mythril v0.24" ∧
    (getToolVersion wProbe (toolVersionCommands "mythril")).1 ≠ none ∧
    (getToolVersion wProbe (toolVersionCommands "mythril")).1 ≠ some "" := by
  exact ⟨rfl, rfl, by decide, by decide⟩

/-- C5 (amended): the prober stops at the first candidate that launches
without fault, exits zero, AND whose text (`stdout` if non-empty else
`stderr`) strips to a non-empty string, returning the first line of the
stripped text; zero-exit candidates with blank text are skipped like
failures; exhausting the list leaves the version absent; and a resolvable
binary all of whose candidates exit non-zero yields `installed = true`
with no version — `check_tools` itself always succeeds. -/
theorem c5_version_probe_amended :
    (∀ w cmd rest m, w.proc cmd = .fault m →
      (getToolVersion w (cmd :: rest)).1 = (getToolVersion w rest).1) ∧
    (∀ w cmd rest dur r, w.proc cmd = .runs dur r → 30 < dur →
      (getToolVersion w (cmd :: rest)).1 = (getToolVersion w rest).1) ∧
    (∀ w cmd rest dur r, w.proc cmd = .runs dur r → dur ≤ 30 →
      r.returncode ≠ 0 →
      (getToolVersion w (cmd :: rest)).1 = (getToolVersion w rest).1) ∧
    (∀ w cmd rest dur r, w.proc cmd = .runs dur r → dur ≤ 30 →
      r.returncode = 0 →
      pyStrip (if r.stdout.isEmpty then r.stderr else r.stdout) = "" →
      (getToolVersion w (cmd :: rest)).1 = (getToolVersion w rest).1) ∧
    (∀ w cmd rest dur r, w.proc cmd = .runs dur r → dur ≤ 30 →
      r.returncode = 0 →
      pyStrip (if r.stdout.isEmpty then r.stderr else r.stdout) ≠ "" →
      (getToolVersion w (cmd :: rest)).1 =
        some (firstLine
          (pyStrip (if r.stdout.isEmpty then r.stderr else r.stdout)))) ∧
    (∀ w, (getToolVersion w []).1 = none) ∧
    (∀ w, w.which "myth" = true →
      (∀ cmd, cmd ∈ toolVersionCommands "mythril" →
        ∃ dur r, w.proc cmd = .runs dur r ∧ dur ≤ 30 ∧ r.returncode ≠ 0) →
      (probeTool w "mythril" "myth").1 = ⟨true, none⟩) ∧
    (∀ w, (checkTools w).1.success = true) := by
  refine ⟨?_, ?_, ?_, ?_, ?_, fun w => rfl, ?_, fun w => rfl⟩
  · intro w cmd rest m hp
    have hs : subprocessRun w cmd 30 = .fault m := by simp [subprocessRun, hp]
    simp [getToolVersion, hs]
  · intro w cmd rest dur r hp hdur
    have hs : subprocessRun w cmd 30 = .timedOut := by
      simp [subprocessRun, hp, hdur]
    simp [getToolVersion, hs]
  · intro w cmd rest dur r hp hdur hrc
    have hs : subprocessRun w cmd 30 = .completed r := by
      simp [subprocessRun, hp, Nat.not_lt.mpr hdur]
    have hb : (r.returncode == 0) = false := by simp [hrc]
    simp [getToolVersion, hs, hb]
  · intro w cmd rest dur r hp hdur hrc hblank
    have hs : subprocessRun w cmd 30 = .completed r := by
      simp [subprocessRun, hp, Nat.not_lt.mpr hdur]
    have hb : (r.returncode == 0) = true := by simp [hrc]
    simp [getToolVersion, hs, hb, hblank, isEmpty_empty]
  · intro w cmd rest dur r hp hdur hrc hnb
    have hs : subprocessRun w cmd 30 = .completed r := by
      simp [subprocessRun, hp, Nat.not_lt.mpr hdur]
    have hb : (r.returncode == 0) = true := by simp [hrc]
    simp [getToolVersion, hs, hb, isEmpty_false_of_ne _ hnb]
  · intro w hwhich hall
    obtain ⟨d1, r1, hp1, hd1, hrc1⟩ :=
      hall ["myth", "--version"] (by simp [toolVersionCommands])
    obtain ⟨d2, r2, hp2, hd2, hrc2⟩ :=
      hall ["myth", "version"] (by simp [toolVersionCommands])
    have hs1 : subprocessRun w ["myth", "--version"] 30 = .completed r1 := by
      simp [subprocessRun, hp1, Nat.not_lt.mpr hd1]
    have hs2 : subprocessRun w ["myth", "version"] 30 = .completed r2 := by
      simp [subprocessRun, hp2, Nat.not_lt.mpr hd2]
    have hb1 : (r1.returncode == 0) = false := by simp [hrc1]
    have hb2 : (r2.returncode == 0) = false := by simp [hrc2]
    simp [probeTool, hwhich, toolVersionCommands, getToolVersion, hs1, hs2,
      hb1, hb2]

/-- C5 witness: the skip-blank-output conjunct applied to the probe
world's first candidate. -/
theorem c5_version_probe_amended_witness :
    (getToolVersion wProbe (["myth", "--version"] :: [["myth", "version"]])).1 =
      (getToolVersion wProbe [["myth", "version"]]).1 :=
  c5_version_probe_amended.2.2.2.1 wProbe ["myth", "--version"]
    [["myth", "version"]] 0 ⟨0, "  ", ""⟩ rfl (by decide) rfl rfl

/-! ## C9 -/

/-- The spec's result invariant: a failure carries a non-empty error; a
success carries a (possibly empty) output string. -/
def resultInvariant (r : AuditResult) : Prop :=
  (r.success = false → ∃ e, r.error = some e ∧ e ≠ "") ∧
  (r.success = true → r.output ≠ none)

theorem resultInvariant_fails {msg : String} (h : msg ≠ "") :
    resultInvariant (fails msg) :=
  ⟨fun _ => ⟨msg, rfl, h⟩, fun hs => Bool.noConfusion hs⟩

theorem resultInvariant_ok {out : String} {e : Option String} {f : Json} :
    resultInvariant ⟨true, some out, e, f⟩ :=
  ⟨fun hs => Bool.noConfusion hs, fun _ hn => Option.noConfusion hn⟩

theorem resultInvariant_runSlither (w : World) (cp? d e : Option String) :
    resultInvariant (runSlither w cp? d e).1 := by
  cases cp? with
  | none => exact resultInvariant_fails (by decide)
  | some cp =>
    simp only [runSlither]
    repeat' split
    all_goals
      first
        | exact resultInvariant_fails (by decide)
        | exact resultInvariant_fails (append_ne_empty_left _ _ (by decide))
        | exact resultInvariant_ok

theorem resultInvariant_runAderyn (w : World) (cp? : Option String) :
    resultInvariant (runAderyn w cp?).1 := by
  cases cp? with
  | none => exact resultInvariant_fails (by decide)
  | some cp =>
    simp only [runAderyn]
    repeat' split
    all_goals
      first
        | exact resultInvariant_fails (by decide)
        | exact resultInvariant_fails (append_ne_empty_left _ _ (by decide))
        | exact resultInvariant_ok

theorem resultInvariant_runMythril (w : World) (cp? : Option String)
    (t : Option Int) : resultInvariant (runMythril w cp? t).1 := by
  cases cp? with
  | none => exact resultInvariant_fails (by decide)
  | some cp =>
    simp only [runMythril]
    repeat' split
    all_goals
      first
        | exact resultInvariant_fails (by decide)
        | exact resultInvariant_fails (append_ne_empty_left _ _ (by decide))
        | exact resultInvariant_ok

theorem resultInvariant_analyzePatterns (w : World) (cp? : Option String) :
    resultInvariant (analyzePatterns w cp?).1 := by
  cases cp? with
  | none => exact resultInvariant_fails (by decide)
  | some cp =>
    simp only [analyzePatterns]
    repeat' split
    all_goals
      first
        | exact resultInvariant_fails (by decide)
        | exact resultInvariant_fails (append_ne_empty_left _ _ (by decide))
        | exact resultInvariant_ok

theorem resultInvariant_readContract (w : World) (cp? : Option String) :
    resultInvariant (readContract w cp?).1 := by
  cases cp? with
  | none => exact resultInvariant_fails (by decide)
  | some cp =>
    simp only [readContract]
    repeat' split
    all_goals
      first
        | exact resultInvariant_fails (by decide)
        | exact resultInvariant_fails (append_ne_empty_left _ _ (by decide))
        | exact resultInvariant_ok

theorem resultInvariant_checkTools (w : World) :
    resultInvariant (checkTools w).1 :=
  resultInvariant_ok

/-- C9: every `AuditResult` produced by the dispatcher — through any
handler or the unknown-action fallback — satisfies the invariant: a
failure carries a non-empty error string, and a success carries a
populated (possibly empty-string) output. -/
theorem c9_result_invariant :
    ∀ (w : World) (name : String) (args : ToolArgs),
      resultInvariant (executeTool w name args).1 := by
  intro w name args
  simp only [executeTool]
  repeat' split
  · exact resultInvariant_runSlither w args.contract_path args.detectors
      args.exclude_detectors
  · exact resultInvariant_runAderyn w args.contract_path
  · exact resultInvariant_runMythril w args.contract_path
      args.execution_timeout
  · exact resultInvariant_analyzePatterns w args.contract_path
  · exact resultInvariant_readContract w args.contract_path
  · exact resultInvariant_checkTools w
  · exact resultInvariant_fails (append_ne_empty_left _ _ (by decide))

/-- C9 witness: the invariant's failure half at the unknown action. -/
theorem c9_result_invariant_witness :
    ∃ e, (executeTool wDefault "bogus" noArgs).1.error = some e ∧ e ≠ "" :=
  (c9_result_invariant wDefault "bogus" noArgs).1 rfl

/-! ## C10 -/

/-- C10: the defensive dispatcher's rendering of a successful result uses
the JSON-encoded findings only when `output` is `None` and the findings
are non-empty; a successful result whose output is present — even the
empty string — renders as that output, so "output present" means
not-`None`, not non-empty. -/
theorem c10_render_success :
    (∀ (s : String) (e : Option String) (f : Json),
      renderResult ⟨true, some s, e, f⟩ = s) ∧
    (∀ (e : Option String) (f : Json), pyTruthy f = true →
      renderResult ⟨true, none, e, f⟩ = jsonDumps f) ∧
    (∀ (e : Option String) (f : Json), pyTruthy f = false →
      renderResult ⟨true, none, e, f⟩ = "") ∧
    renderResult ⟨true, some "", none, Json.arr [Json.str "x"]⟩ = "" := by
  refine ⟨fun s e f => rfl, ?_, ?_, rfl⟩
  · intro e f h
    simp [renderResult, h]
  · intro e f h
    simp [renderResult, h]

/-- C10 witness: the findings-encoding conjunct at concrete findings. -/
theorem c10_render_success_witness :
    renderResult ⟨true, none, none, Json.arr [Json.str "x"]⟩ =
      jsonDumps (Json.arr [Json.str "x"]) :=
  c10_render_success.2.1 none (Json.arr [Json.str "x"]) rfl

/-! ## C3 -/

/-- Agreement between a defensive result `d` and a legacy result `l` up
to error text: same success flag, same output, same error presence, and
the legacy findings are the defensive findings normalised by the legacy
constructor's `findings or []`.  The fourth component is deliberately
NOT plain findings equality: when the defensive findings value is falsy
(e.g. JSON `null` extracted from under `results.detectors`), the legacy
variant stores the empty list instead — a genuine behavioural
divergence, exhibited by the counterexample. -/
def resultAgrees (d l : AuditResult) : Prop :=
  d.success = l.success ∧ d.output = l.output ∧
  d.error.isSome = l.error.isSome ∧
  l.findings = (if pyTruthy d.findings then d.findings else Json.arr [])

/-- The legacy `findings or []` normalisation is the identity on list
values: an empty list maps to the empty list, a non-empty list is
truthy. -/
theorem legacyNorm_arr (l : List Json) :
    (if pyTruthy (Json.arr l) then Json.arr l else Json.arr []) =
      Json.arr l := by
  cases l <;> rfl

/-- The scanner execution path reaching a completed subprocess with a
non-zero exit code. -/
def slitherNonzeroExit (w : World) (cp? d e : Option String) : Prop :=
  ∃ cp r, cp? = some cp ∧ cp ≠ "" ∧ w.isFile cp = true ∧
    w.which "slither" = true ∧
    subprocessRun w (slitherArgs cp d e) 300 = .completed r ∧
    r.returncode ≠ 0

/-- The linter execution path reaching a completed subprocess with a
non-zero exit code. -/
def aderynNonzeroExit (w : World) (cp? : Option String) : Prop :=
  ∃ cp r, cp? = some cp ∧ cp ≠ "" ∧ w.isFile cp = true ∧
    w.which "aderyn" = true ∧
    subprocessRun w ["aderyn", cp] 300 = .completed r ∧
    r.returncode ≠ 0

/-- The symbolic-engine execution path reaching a completed subprocess
with a non-zero exit code. -/
def mythrilNonzeroExit (w : World) (cp? : Option String)
    (t : Option Int) : Prop :=
  ∃ cp r, cp? = some cp ∧ cp ≠ "" ∧ w.isFile cp = true ∧
    w.which "myth" = true ∧
    subprocessRun w (mythrilArgs cp t) 600 = .completed r ∧
    r.returncode ≠ 0

/-- A world whose subprocess completes with exit code 1 and output. -/
def wExitOut : World :=
  ⟨fun _ => true, fun _ => true, fun _ => .runs 0 ⟨1, "out", "err"⟩,
    fun _ => .error "unreadable"⟩

/-- A world whose subprocess exits 0 with a JSON object holding `null`
under `results.detectors`. -/
def wNullDet : World :=
  ⟨fun _ => true, fun _ => true,
    fun _ => .runs 0
      ⟨0, "\x7b\"results\": \x7b\"detectors\": null\x7d\x7d", ""⟩,
    fun _ => .error "unreadable"⟩

/-- C3 counterexample, two divergences beyond the claim's allowed
exceptions.  First, on a completed subprocess with exit code 1 the two
scanner variants differ in the success flag and the output: the legacy
handler ignores the exit code and succeeds with the raw stdout, the
defensive one fails.  Second, even on a zero exit the findings can
differ: with `null` under `results.detectors`, both variants succeed but
the defensive dataclass keeps `findings = None` while the legacy
constructor's `findings or []` collapses it to the empty list. -/
theorem c3_counterexample :
    (legacyRunSlither wExitOut (some "a.sol") none none).1.success = true ∧
    (runSlither wExitOut (some "a.sol") none none).1.success = false ∧
    (legacyRunSlither wExitOut (some "a.sol") none none).1.output =
      some "out" ∧
    (runSlither wExitOut (some "a.sol") none none).1.output = none ∧
    (runSlither wNullDet (some "a.sol") none none).1.success = true ∧
    (legacyRunSlither wNullDet (some "a.sol") none none).1.success = true ∧
    (runSlither wNullDet (some "a.sol") none none).1.findings = Json.null ∧
    (legacyRunSlither wNullDet (some "a.sol") none none).1.findings =
      Json.arr [] := by
  exact ⟨rfl, rfl, rfl, rfl, rfl, rfl, rfl, rfl⟩

/-- C3 (amended): the two variants of the pattern-analysis and
read-contract handlers agree on every input on success, output, error
presence, and exactly on findings — only error message text differs.
The three external-tool handlers, on every input whose execution does
not reach a completed subprocess with non-zero exit code, agree on
success, output, and error presence, while the legacy findings equal
the defensive findings normalised by the legacy constructor's
`findings or []` — a falsy extracted findings value (such as JSON
`null` under the `detectors`/`issues` key) collapses to the empty list
in the legacy variant while the defensive variant keeps it; the other
differences are error message text (the missing-argument precondition
surfaces in the legacy variant as a wrapped `TypeError` with the same
failure shape) and the linter's install command.  On non-zero exits the
variants genuinely diverge: the legacy handler returns success with the
raw stdout, the defensive one returns a failure (see the
counterexample for both divergences). -/
theorem c3_variant_agreement_amended :
    (∀ w cp? d e, ¬ slitherNonzeroExit w cp? d e →
      resultAgrees (runSlither w cp? d e).1 (legacyRunSlither w cp? d e).1) ∧
    (∀ w cp?, ¬ aderynNonzeroExit w cp? →
      resultAgrees (runAderyn w cp?).1 (legacyRunAderyn w cp?).1) ∧
    (∀ w cp? t, ¬ mythrilNonzeroExit w cp? t →
      resultAgrees (runMythril w cp? t).1 (legacyRunMythril w cp? t).1) ∧
    (∀ w cp?, resultAgrees (analyzePatterns w cp?).1
      (legacyAnalyzePatterns w cp?).1 ∧
      (legacyAnalyzePatterns w cp?).1.findings =
        (analyzePatterns w cp?).1.findings) ∧
    (∀ w cp?, resultAgrees (readContract w cp?).1
      (legacyReadContract w cp?).1 ∧
      (legacyReadContract w cp?).1.findings =
        (readContract w cp?).1.findings) := by
  refine ⟨?_, ?_, ?_, ?_, ?_⟩
  · intro w cp? d e hno
    cases cp? with
    | none => exact ⟨rfl, rfl, rfl, rfl⟩
    | some cp =>
      by_cases hcp : cp.isEmpty = true
      · simp only [runSlither, legacyRunSlither, hcp, if_true]
        exact ⟨rfl, rfl, rfl, rfl⟩
      · have hne : cp ≠ "" := fun hc => hcp (by rw [hc]; rfl)
        by_cases hfile : w.isFile cp = true
        · by_cases hwhich : w.which "slither" = true
          · cases hsub : subprocessRun w (slitherArgs cp d e) 300 with
            | timedOut =>
              simp only [runSlither, legacyRunSlither,
                isEmpty_false_of_ne cp hne, hfile, hwhich, hsub]
              exact ⟨rfl, rfl, rfl, rfl⟩
            | fault m =>
              simp only [runSlither, legacyRunSlither,
                isEmpty_false_of_ne cp hne, hfile, hwhich, hsub]
              exact ⟨rfl, rfl, rfl, rfl⟩
            | completed r =>
              by_cases hrc : (r.returncode == 0) = true
              · cases hsf : slitherFindings r.stdout with
                | ok f =>
                  simp only [runSlither, legacyRunSlither,
                    isEmpty_false_of_ne cp hne, hfile, hwhich, hsub, hrc,
                    hsf, if_true]
                  exact ⟨rfl, rfl, rfl, rfl⟩
                | error m =>
                  simp only [runSlither, legacyRunSlither,
                    isEmpty_false_of_ne cp hne, hfile, hwhich, hsub, hrc,
                    hsf, if_true]
                  exact ⟨rfl, rfl, rfl, rfl⟩
              · exact absurd ⟨cp, r, rfl, hne, hfile, hwhich, hsub,
                  by simpa using hrc⟩ hno
          · have hw : w.which "slither" = false := by simpa using hwhich
            simp only [runSlither, legacyRunSlither,
              isEmpty_false_of_ne cp hne, hfile, hw]
            exact ⟨rfl, rfl, rfl, rfl⟩
        · simp only [runSlither, legacyRunSlither,
            isEmpty_false_of_ne cp hne, hfile]
          exact ⟨rfl, rfl, rfl, rfl⟩
  · intro w cp? hno
    cases cp? with
    | none => exact ⟨rfl, rfl, rfl, rfl⟩
    | some cp =>
      by_cases hcp : cp.isEmpty = true
      · simp only [runAderyn, legacyRunAderyn, hcp, if_true]
        exact ⟨rfl, rfl, rfl, rfl⟩
      · have hne : cp ≠ "" := fun hc => hcp (by rw [hc]; rfl)
        by_cases hfile : w.isFile cp = true
        · by_cases hwhich : w.which "aderyn" = true
          · cases hsub : subprocessRun w ["aderyn", cp] 300 with
            | timedOut =>
              simp only [runAderyn, legacyRunAderyn,
                isEmpty_false_of_ne cp hne, hfile, hwhich, hsub]
              exact ⟨rfl, rfl, rfl, rfl⟩
            | fault m =>
              simp only [runAderyn, legacyRunAderyn,
                isEmpty_false_of_ne cp hne, hfile, hwhich, hsub]
              exact ⟨rfl, rfl, rfl, rfl⟩
            | completed r =>
              by_cases hrc : (r.returncode == 0) = true
              · simp only [runAderyn, legacyRunAderyn,
                  isEmpty_false_of_ne cp hne, hfile, hwhich, hsub, hrc,
                  if_true]
                exact ⟨rfl, rfl, rfl, rfl⟩
              · exact absurd ⟨cp, r, rfl, hne, hfile, hwhich, hsub,
                  by simpa using hrc⟩ hno
          · have hw : w.which "aderyn" = false := by simpa using hwhich
            simp only [runAderyn, legacyRunAderyn,
              isEmpty_false_of_ne cp hne, hfile, hw]
            exact ⟨rfl, rfl, rfl, rfl⟩
        · simp only [runAderyn, legacyRunAderyn,
            isEmpty_false_of_ne cp hne, hfile]
          exact ⟨rfl, rfl, rfl, rfl⟩
  · intro w cp? t hno
    cases cp? with
    | none => exact ⟨rfl, rfl, rfl, rfl⟩
    | some cp =>
      by_cases hcp : cp.isEmpty = true
      · simp only [runMythril, legacyRunMythril, hcp, if_true]
        exact ⟨rfl, rfl, rfl, rfl⟩
      · have hne : cp ≠ "" := fun hc => hcp (by rw [hc]; rfl)
        by_cases hfile : w.isFile cp = true
        · by_cases hwhich : w.which "myth" = true
          · cases hsub : subprocessRun w (mythrilArgs cp t) 600 with
            | timedOut =>
              simp only [runMythril, legacyRunMythril,
                isEmpty_false_of_ne cp hne, hfile, hwhich, hsub]
              exact ⟨rfl, rfl, rfl, rfl⟩
            | fault m =>
              simp only [runMythril, legacyRunMythril,
                isEmpty_false_of_ne cp hne, hfile, hwhich, hsub]
              exact ⟨rfl, rfl, rfl, rfl⟩
            | completed r =>
              by_cases hrc : (r.returncode == 0) = true
              · cases hsf : mythrilFindings r.stdout with
                | ok f =>
                  simp only [runMythril, legacyRunMythril,
                    isEmpty_false_of_ne cp hne, hfile, hwhich, hsub, hrc,
                    hsf, if_true]
                  exact ⟨rfl, rfl, rfl, rfl⟩
                | error m =>
                  simp only [runMythril, legacyRunMythril,
                    isEmpty_false_of_ne cp hne, hfile, hwhich, hsub, hrc,
                    hsf, if_true]
                  exact ⟨rfl, rfl, rfl, rfl⟩
              · exact absurd ⟨cp, r, rfl, hne, hfile, hwhich, hsub,
                  by simpa using hrc⟩ hno
          · have hw : w.which "myth" = false := by simpa using hwhich
            simp only [runMythril, legacyRunMythril,
              isEmpty_false_of_ne cp hne, hfile, hw]
            exact ⟨rfl, rfl, rfl, rfl⟩
        · simp only [runMythril, legacyRunMythril,
            isEmpty_false_of_ne cp hne, hfile]
          exact ⟨rfl, rfl, rfl, rfl⟩
  · intro w cp?
    cases cp? with
    | none => exact ⟨⟨rfl, rfl, rfl, rfl⟩, by trivial⟩
    | some cp =>
      by_cases hcp : cp.isEmpty = true
      · simp only [analyzePatterns, legacyAnalyzePatterns, hcp, if_true]
        exact ⟨⟨rfl, rfl, rfl, rfl⟩, by trivial⟩
      · have hne : cp ≠ "" := fun hc => hcp (by rw [hc]; rfl)
        by_cases hfile : w.isFile cp = true
        · cases hread : w.readFile cp with
          | error m =>
            simp only [analyzePatterns, legacyAnalyzePatterns,
              isEmpty_false_of_ne cp hne, hfile, hread]
            exact ⟨⟨rfl, rfl, rfl, rfl⟩, by trivial⟩
          | ok content =>
            simp only [analyzePatterns, legacyAnalyzePatterns,
              isEmpty_false_of_ne cp hne, hfile, hread]
            exact ⟨⟨rfl, rfl, rfl, rfl⟩, legacyNorm_arr _⟩
        · simp only [analyzePatterns, legacyAnalyzePatterns,
            isEmpty_false_of_ne cp hne, hfile]
          exact ⟨⟨rfl, rfl, rfl, rfl⟩, by trivial⟩
  · intro w cp?
    cases cp? with
    | none => exact ⟨⟨rfl, rfl, rfl, rfl⟩, by trivial⟩
    | some cp =>
      by_cases hcp : cp.isEmpty = true
      · simp only [readContract, legacyReadContract, hcp, if_true]
        exact ⟨⟨rfl, rfl, rfl, rfl⟩, by trivial⟩
      · have hne : cp ≠ "" := fun hc => hcp (by rw [hc]; rfl)
        by_cases hfile : w.isFile cp = true
        · cases hread : w.readFile cp with
          | error m =>
            simp only [readContract, legacyReadContract,
              isEmpty_false_of_ne cp hne, hfile, hread]
            exact ⟨⟨rfl, rfl, rfl, rfl⟩, by trivial⟩
          | ok content =>
            simp only [readContract, legacyReadContract,
              isEmpty_false_of_ne cp hne, hfile, hread]
            exact ⟨⟨rfl, rfl, rfl, rfl⟩, by trivial⟩
        · simp only [readContract, legacyReadContract,
            isEmpty_false_of_ne cp hne, hfile]
          exact ⟨⟨rfl, rfl, rfl, rfl⟩, by trivial⟩

/-- C3 witness: the scanner agreement at a world where the precondition
path (file not found) is taken, discharging the no-non-zero-exit
hypothesis. -/
theorem c3_variant_agreement_amended_witness :
    resultAgrees (runSlither wDefault (some "a.sol") none none).1
      (legacyRunSlither wDefault (some "a.sol") none none).1 :=
  c3_variant_agreement_amended.1 wDefault (some "a.sol") none none
    (by rintro ⟨cp, r, _, _, hfile, _⟩; exact Bool.noConfusion hfile)

end SCAudit
